import Mathlib

/-!
Shallow embedding of the session-orchestration core of the github-issue-automation
repository (src/devin-client.js).  Network effects are modelled by explicit
transport oracles: an `Except Unit` value stands for a promise that either
resolves or rejects, and the poll loop reads the result of its k-th getSession
fetch from a `Nat`-indexed oracle.  Time is modelled by the poll loop's own
accounting: fetches are instantaneous and every non-terminal tick sleeps
exactly `POLL_INTERVAL` milliseconds, so the elapsed wall-clock at tick `t` is
`t * POLL_INTERVAL`.  The JavaScript builtin `JSON.parse` (the only piece of
behaviour not written in the repository) is modelled as an opaque parameter
`jsonParse : String → Option payload` that succeeds exactly when the text parses
to an object carrying the payload fields; all theorems quantify over it.
-/

namespace Devin

/-- Poll interval between status fetches, in milliseconds (source: `POLL_INTERVAL = 5000`). -/
def POLL_INTERVAL : Nat := 5000

/-- Hard polling ceiling, in milliseconds (source: `MAX_POLL_TIME = 300000`). -/
def MAX_POLL_TIME : Nat := 300000

/-- Number of ticks admitted by the while-loop guard `Date.now() - start < MAX_POLL_TIME`
under the instantaneous-fetch model: ticks 0 … MAX_TICKS - 1. -/
def MAX_TICKS : Nat := MAX_POLL_TIME / POLL_INTERVAL

/-- Decidable equality of promise outcomes, used to evaluate closed poll runs. -/
instance {ε β : Type} [DecidableEq ε] [DecidableEq β] : DecidableEq (Except ε β) := fun a b =>
  match a, b with
  | .error e, .error f =>
    if h : e = f then .isTrue (by rw [h]) else .isFalse (fun hc => h (Except.error.inj hc))
  | .error _, .ok _ => .isFalse (fun hc => Except.noConfusion hc)
  | .ok _, .error _ => .isFalse (fun hc => Except.noConfusion hc)
  | .ok x, .ok y =>
    if h : x = y then .isTrue (by rw [h]) else .isFalse (fun hc => h (Except.ok.inj hc))

/-- A GitHub issue as consumed by DevinClient: number, title, optional body, labels. -/
structure Issue where
  number : Nat
  title : String
  body : Option String
  labels : List String
deriving DecidableEq, Repr

/-- One entry of `session.messages`: its `type` tag and `message` text. -/
structure Msg where
  type : String
  message : String
deriving DecidableEq, Repr

/-- A Devin session as fetched from the API: `status_enum` with fallback field
`status`, the optional `structured_output` payload, and the message list. -/
structure Session (α : Type) where
  status_enum : Option String
  status : String
  structured_output : Option α
  messages : List Msg
deriving DecidableEq, Repr

variable {α : Type}

/-- Truthiness of a JavaScript string-or-undefined value: absent or empty is falsy. -/
def jsTruthy : Option String → Bool
  | none => false
  | some v => !(v == "")

/-- The status the poll loop reads: `session.status_enum || session.status`,
where the JavaScript or-fallthrough happens when `status_enum` is absent or empty. -/
def statusOf (s : Session α) : String :=
  match s.status_enum with
  | some e => if e = "" then s.status else e
  | none => s.status

/-- The poll loop's stop condition (source line 58):
status is finished, blocked, or expired. -/
def isTerminal (status : String) : Bool :=
  status == "finished" || status == "blocked" || status == "expired"

/-- Errors the client raises: the poll-timeout throw, a rejected axios promise,
and the missing-API-key precondition throw of `executeActionPlan`. -/
inductive DevinError where
  | pollTimeout
  | transport
  | precondition
deriving DecidableEq, Repr

/-- Outcome of a successful poll: the session returned, the number of getSession
fetches performed, and the number of `POLL_INTERVAL` sleeps taken before returning. -/
structure PollTrace (α : Type) where
  result : Session α
  fetches : Nat
  sleeps : Nat
deriving DecidableEq, Repr

/-- One step of `pollSession`'s while loop (source lines 50-65).  The guard
`tick * POLL_INTERVAL < MAX_POLL_TIME` is the loop condition
`Date.now() - start < MAX_POLL_TIME` under the instantaneous-fetch model.
The `fuel` argument is structural-recursion bookkeeping only: `pollSessionE`
starts it at `MAX_TICKS`, so it reaches 0 only when the time guard would
fail as well, and both exits throw the timeout. -/
def pollAux (get : Nat → Except Unit (Session α)) : Nat → Nat → Except DevinError (PollTrace α)
  | 0, _ => .error .pollTimeout
  | fuel + 1, tick =>
    if tick * POLL_INTERVAL < MAX_POLL_TIME then
      match get tick with
      | .error _ => .error .transport
      | .ok s =>
        if isTerminal (statusOf s) then .ok ⟨s, tick + 1, tick⟩
        else pollAux get fuel (tick + 1)
    else .error .pollTimeout

/-- `pollSession`: run the while loop from tick 0.  A timeout or a rejected
getSession produces an `Except.error` carrying no partial result. -/
def pollSessionE (get : Nat → Except Unit (Session α)) : Except DevinError (PollTrace α) :=
  pollAux get MAX_TICKS 0

/-- Predicate selecting agent-authored messages (source line 71). -/
def isDevinType (m : Msg) : Bool :=
  m.type == "tool_output" || m.type == "assistant" || m.type == "devin"

/-- `getLastDevinMessage`: the `.message` of the last agent-authored message, if any. -/
def getLastDevinMessage (s : Session α) : Option String :=
  ((s.messages.filter isDevinType).getLast?).map Msg.message

/-- The six fields of the scoping schema, as carried by a scope payload. -/
structure ScopePayload where
  scope : String
  complexity : Int
  confidence_score : Int
  requirements : List String
  risks : List String
  estimated_time : String
deriving DecidableEq, Repr

/-- A scope stage result object: the optional `session_id` / `session_url`
properties, the scope payload fields, and whether the object carries the
`fallback: true` marker (`fallback = false` models the key being absent). -/
structure ScopeResult where
  session_id : Option String
  session_url : Option String
  payload : ScopePayload
  fallback : Bool
deriving DecidableEq, Repr

/-- Body length as computed by `issue.body ? issue.body.length : 0`. -/
def bodyLength (issue : Issue) : Nat :=
  match issue.body with
  | some b => b.length
  | none => 0

/-- The payload part of `fallbackScoping` (source lines 301-334), translated
step for step: sequential complexity adjustments, clamp, confidence, and the
template strings. -/
def fallbackScopingPayload (issue : Issue) : ScopePayload :=
  let labelCount := issue.labels.length
  let c0 : Int := 3
  let c1 := if bodyLength issue > 1000 then c0 + 2 else c0
  let c2 := if labelCount > 3 then c1 + 1 else c1
  let c3 := if issue.labels.contains "bug" then c2 - 1 else c2
  let c4 := if issue.labels.contains "enhancement" then c3 + 1 else c3
  let c5 := if issue.labels.contains "complex" then c4 + 3 else c4
  let complexity := min 10 (max 1 c5)
  let confidence := max 20 (100 - complexity * 8)
  { scope := "Basic analysis of issue #" ++ toString issue.number ++ ": " ++ issue.title
    complexity := complexity
    confidence_score := confidence
    requirements := ["Review issue description", "Implement required changes",
      "Test the solution", "Update documentation if needed"]
    risks := ["Limited context from issue description", "Potential unknown dependencies"]
    estimated_time := toString (complexity * 2) ++ " hours" }

/-- The object `fallbackScoping(issue)` evaluates to when returned directly
(no-API-key path and catch path): the payload plus `fallback: true`, with no
session identifiers attached. -/
def fallbackScopingResult (issue : Issue) : ScopeResult :=
  ⟨none, none, fallbackScopingPayload issue, true⟩

/-- The parse-failure default `scopeIssue` builds when `JSON.parse` of the
extracted last message throws (source lines 138-147). -/
def parseFailurePayload (msg : String) : ScopePayload :=
  { scope := msg
    complexity := 5
    confidence_score := 50
    requirements := ["Review Devin session for details"]
    risks := ["Could not parse structured response"]
    estimated_time := "See Devin session" }

/-- Index of the last occurrence of `c` in `l`, located through the first
occurrence in the reversed list. -/
def lastIdxOf (c : Char) (l : List Char) : Option Nat :=
  match l.reverse.findIdx? (fun x => x == c) with
  | some k => some (l.length - 1 - k)
  | none => none

/-- Semantics of the greedy regex match in `extractJson` (source lines 295-299):
the regex matches from the first open brace through the last close brace that
lies after it; when no such span exists, `text.match` is null and the input is
returned unchanged. -/
def extractJsonL (text : List Char) : List Char :=
  match text.findIdx? (fun ch => ch == '{'), lastIdxOf '}' text with
  | some i, some j => if i < j then (text.drop i).take (j - i + 1) else text
  | some _, none => text
  | none, _ => text

/-- `extractJson` on strings, acting on the underlying character list. -/
def extractJson (s : String) : String :=
  ⟨extractJsonL s.data⟩

/-- The network interactions `scopeIssue` can make, as an oracle: the outcome of
the `createSession` call and the outcome of the k-th `getSession` fetch made by
the poll loop.  An `.error` models a rejected promise. -/
structure Transport (α : Type) where
  create : Except Unit (String × String)
  get : Nat → Except Unit (Session α)

/-- Result resolution of a polled scope session (source lines 121-151): the
structured output verbatim if present, else JSON parsed from the extracted last
agent message, else the parse-failure default, else `fallbackScoping` spread
together with the session identifiers.  The parse branch is guarded by the
JavaScript truthiness test `if (lastMessage)` of line 132: a missing message
and an empty-string message are both falsy and fall to line 151's tagged
heuristic fallback. -/
def resolveScopeSession (jsonParse : String → Option ScopePayload) (issue : Issue)
    (session_id url : String) (s : Session ScopePayload) : ScopeResult :=
  match s.structured_output with
  | some p => ⟨some session_id, some url, p, false⟩
  | none =>
    match getLastDevinMessage s with
    | some msg =>
      if msg == "" then ⟨some session_id, some url, fallbackScopingPayload issue, true⟩
      else
        match jsonParse (extractJson msg) with
        | some parsed => ⟨some session_id, some url, parsed, false⟩
        | none => ⟨some session_id, some url, parseFailurePayload msg, false⟩
    | none => ⟨some session_id, some url, fallbackScopingPayload issue, true⟩

/-- `scopeIssue` (source lines 77-156): fallback-only when the API key is falsy;
otherwise create a session, poll it, and resolve the result, with every thrown
error (rejected create, rejected fetch, poll timeout) caught and degraded to
`fallbackScoping`. -/
def scopeIssue (jsonParse : String → Option ScopePayload) (apiKey : Option String)
    (t : Transport ScopePayload) (issue : Issue) : ScopeResult :=
  if !jsTruthy apiKey then fallbackScopingResult issue
  else
    match t.create with
    | .error _ => fallbackScopingResult issue
    | .ok (session_id, url) =>
      match pollSessionE t.get with
      | .error _ => fallbackScopingResult issue
      | .ok tr => resolveScopeSession jsonParse issue session_id url tr.result

/-- The six fields of the planning schema, as carried by a plan payload. -/
structure PlanPayload where
  steps : List String
  files_to_create : List String
  files_to_modify : List String
  testing_strategy : String
  dependencies : List String
  success_criteria : List String
deriving DecidableEq, Repr

/-- A plan stage result object, mirroring `ScopeResult`. -/
structure PlanResult where
  session_id : Option String
  session_url : Option String
  payload : PlanPayload
  fallback : Bool
deriving DecidableEq, Repr

/-- The payload of `fallbackActionPlan` (source lines 336-358); the function
ignores its `issue` and `scope` arguments and returns this fixed template. -/
def fallbackActionPlanPayload : PlanPayload :=
  { steps := ["Analyze current codebase structure", "Implement the required changes",
      "Test the implementation", "Create or update tests", "Update documentation",
      "Submit pull request"]
    files_to_create := []
    files_to_modify := []
    testing_strategy := "Manual testing and automated tests where applicable"
    dependencies := []
    success_criteria := ["Issue requirements are met", "Code follows project standards",
      "Tests pass", "Documentation is updated"] }

/-- The object `fallbackActionPlan(issue, scope)` evaluates to when returned
directly: the fixed payload plus `fallback: true`, no session identifiers. -/
def fallbackActionPlanResult : PlanResult :=
  ⟨none, none, fallbackActionPlanPayload, true⟩

/-- The network interactions `generateActionPlan` can make: the continuation
attempt's getSession, sendMessage, and poll fetches, then the fresh session's
create call and poll fetches. -/
structure PlanTransport where
  contGet : Except Unit (Session PlanPayload)
  contSend : Except Unit Unit
  contPoll : Nat → Except Unit (Session PlanPayload)
  create : Except Unit (String × String)
  freshGet : Nat → Except Unit (Session PlanPayload)

/-- The fresh-session planning path of `generateActionPlan` (source lines
198-256): create, poll, then resolve with the same tiers as the scope stage
except that a parse failure falls to the tagged plan fallback; errors reach the
outer catch and degrade to `fallbackActionPlan` with no session identifiers.
The parse branch is guarded by the truthiness test `if (lastMessage)` of line
245: a missing or empty-string message falls to line 252's tagged fallback. -/
def planFresh (jsonParse : String → Option PlanPayload) (pt : PlanTransport) : PlanResult :=
  match pt.create with
  | .error _ => fallbackActionPlanResult
  | .ok (session_id, url) =>
    match pollSessionE pt.freshGet with
    | .error _ => fallbackActionPlanResult
    | .ok tr =>
      match tr.result.structured_output with
      | some p => ⟨some session_id, some url, p, false⟩
      | none =>
        match getLastDevinMessage tr.result with
        | some msg =>
          if msg == "" then ⟨some session_id, some url, fallbackActionPlanPayload, true⟩
          else
            match jsonParse (extractJson msg) with
            | some parsed => ⟨some session_id, some url, parsed, false⟩
            | none => ⟨some session_id, some url, fallbackActionPlanPayload, true⟩
        | none => ⟨some session_id, some url, fallbackActionPlanPayload, true⟩

/-- `generateActionPlan` (source lines 159-257): fallback-only when the API key
is falsy; else, when the scope result carries a truthy `session_id`, attempt the
continuation path (getSession, and only if `status_enum === 'blocked'`:
sendMessage, poll, resolve), where any rejection is swallowed by the inner catch
and any unresolved outcome falls through to the fresh-session path.  The
continuation parse branch is guarded by the truthiness test `if (msg)` of line
188: a missing or empty-string message falls through to the fresh path. -/
def generateActionPlan (jsonParse : String → Option PlanPayload) (apiKey : Option String)
    (pt : PlanTransport) (scope : ScopeResult) : PlanResult :=
  if !jsTruthy apiKey then fallbackActionPlanResult
  else if jsTruthy scope.session_id then
    match pt.contGet with
    | .error _ => planFresh jsonParse pt
    | .ok sess =>
      if sess.status_enum == some "blocked" then
        match pt.contSend with
        | .error _ => planFresh jsonParse pt
        | .ok _ =>
          match pollSessionE pt.contPoll with
          | .error _ => planFresh jsonParse pt
          | .ok tr =>
            match tr.result.structured_output with
            | some p => ⟨scope.session_id, scope.session_url, p, false⟩
            | none =>
              match getLastDevinMessage tr.result with
              | some msg =>
                if msg == "" then planFresh jsonParse pt
                else
                  match jsonParse (extractJson msg) with
                  | some parsed => ⟨scope.session_id, scope.session_url, parsed, false⟩
                  | none => planFresh jsonParse pt
              | none => planFresh jsonParse pt
      else planFresh jsonParse pt
  else planFresh jsonParse pt

/-- The handle `executeActionPlan` returns: session info plus status started. -/
structure ExecutionHandle where
  session_id : String
  session_url : String
  status : String
deriving DecidableEq, Repr

/-- `executeActionPlan` (source lines 260-292): throws the precondition error
when the API key is falsy, before touching the network; otherwise creates a
session (a rejected create propagates as a transport error) and returns
immediately without polling. -/
def executeActionPlan (apiKey : Option String) (create : Except Unit (String × String)) :
    Except DevinError ExecutionHandle :=
  if !jsTruthy apiKey then .error .precondition
  else
    match create with
    | .error _ => .error .transport
    | .ok (session_id, url) => .ok ⟨session_id, url, "started"⟩

/-- Complexity as the claim words it: a base of 3 plus and minus the listed body,
label-count, and label contributions, clamped to the interval from 1 to 10. -/
def specComplexity (issue : Issue) : Int :=
  min 10 (max 1 (3 + (if bodyLength issue > 1000 then 2 else 0)
    + (if issue.labels.length > 3 then 1 else 0)
    - (if issue.labels.contains "bug" then 1 else 0)
    + (if issue.labels.contains "enhancement" then 1 else 0)
    + (if issue.labels.contains "complex" then 3 else 0)))

/-- Confidence as the claim words it: the maximum of 20 and 100 minus eight times
the clamped complexity. -/
def specConfidence (issue : Issue) : Int :=
  max 20 (100 - specComplexity issue * 8)

/-- Estimated time as the claim words it: twice the clamped complexity, in hours. -/
def specEstimatedTime (issue : Issue) : String :=
  toString (specComplexity issue * 2) ++ " hours"

/-- The scenario ticket of claim C3: number 42, title Fix crash, a body of 1200
characters, labels bug and complex. -/
def ticket42 : Issue :=
  ⟨42, "Fix crash", some (String.mk (List.replicate 1200 'a')), ["bug", "complex"]⟩

set_option maxRecDepth 10000 in
/-- Claim C3 (confirmed): the heuristic score starts at complexity 3, adds 2 for a
body longer than 1000, adds 1 for more than 3 labels, subtracts 1 for a bug
label, adds 1 for enhancement, adds 3 for complex, clamps complexity to the
interval from 1 to 10, sets confidence to the maximum of 20 and 100 minus eight
times complexity, and renders estimated time as twice the complexity in hours;
the scenario ticket yields complexity 7, confidence 44, and 14 hours. -/
theorem heuristic_scoring_algorithm :
    (∀ issue : Issue,
      (fallbackScopingPayload issue).complexity = specComplexity issue ∧
      (fallbackScopingPayload issue).confidence_score = specConfidence issue ∧
      (fallbackScopingPayload issue).estimated_time = specEstimatedTime issue) ∧
    (fallbackScopingPayload ticket42).complexity = 7 ∧
    (fallbackScopingPayload ticket42).confidence_score = 44 ∧
    (fallbackScopingPayload ticket42).estimated_time = "14 hours" := by
  constructor
  · intro issue
    simp only [fallbackScopingPayload, specComplexity, specConfidence, specEstimatedTime]
    split_ifs <;> refine ⟨by norm_num, by norm_num, by norm_num⟩
  · refine ⟨by decide, by decide, by decide⟩

/-- Claim C7 (confirmed): a falsy API credential routes the scope and plan stages
to their fallback results with no dependence on the transport oracle, hence
without any network interaction, and makes the execute stage raise the
precondition error for every transport. -/
theorem missing_credential_routing :
    (∀ (jsonParse : String → Option ScopePayload) (apiKey : Option String)
        (t : Transport ScopePayload) (issue : Issue), jsTruthy apiKey = false →
        scopeIssue jsonParse apiKey t issue = fallbackScopingResult issue) ∧
    (∀ (jsonParse : String → Option PlanPayload) (apiKey : Option String)
        (pt : PlanTransport) (scope : ScopeResult), jsTruthy apiKey = false →
        generateActionPlan jsonParse apiKey pt scope = fallbackActionPlanResult) ∧
    (∀ (apiKey : Option String) (create : Except Unit (String × String)),
        jsTruthy apiKey = false →
        executeActionPlan apiKey create = .error .precondition) := by
  refine ⟨fun _ _ _ _ h => ?_, fun _ _ _ _ h => ?_, fun _ _ h => ?_⟩ <;>
    simp [scopeIssue, generateActionPlan, executeActionPlan, h]

/-- A scope transport whose create call resolves but whose fetches all reject. -/
def wTransportReject : Transport ScopePayload := ⟨.ok ("sW", "uW"), fun _ => .error ()⟩

/-- A plan transport used for closed instances. -/
def wPlanTransport : PlanTransport :=
  ⟨.error (), .ok (), fun _ => .error (), .ok ("sY", "uY"), fun _ => .error ()⟩

/-- A scope result with no session identifiers, used for closed instances. -/
def wScopeResultPlain : ScopeResult := ⟨none, none, parseFailurePayload "m", false⟩

/-- Witness for claim C7: the missing-credential routing evaluated on concrete
transports and a concrete issue. -/
theorem missing_credential_routing_witness :
    scopeIssue (fun _ => none) none wTransportReject ⟨1, "t", none, []⟩ =
      fallbackScopingResult ⟨1, "t", none, []⟩ ∧
    generateActionPlan (fun _ => none) none wPlanTransport wScopeResultPlain =
      fallbackActionPlanResult ∧
    executeActionPlan none (.ok ("a", "b")) = .error .precondition :=
  ⟨missing_credential_routing.1 _ none _ _ rfl,
   missing_credential_routing.2.1 _ none _ _ rfl,
   missing_credential_routing.2.2 none _ rfl⟩

/-- Claim C1 (confirmed): a session carrying a structured payload resolves to that
payload verbatim, with no fallback marker, independently of the parse function
and of the message list, in both the scope stage and the plan stage's
fresh-session path. -/
theorem structured_output_roundtrip :
    (∀ (jsonParse : String → Option ScopePayload) (apiKey : Option String)
        (t : Transport ScopePayload) (issue : Issue) (sid url : String)
        (tr : PollTrace ScopePayload) (p : ScopePayload),
        jsTruthy apiKey = true →
        t.create = .ok (sid, url) →
        pollSessionE t.get = .ok tr →
        tr.result.structured_output = some p →
        scopeIssue jsonParse apiKey t issue = ⟨some sid, some url, p, false⟩) ∧
    (∀ (jsonParse : String → Option PlanPayload) (apiKey : Option String)
        (pt : PlanTransport) (scope : ScopeResult) (sid url : String)
        (tr : PollTrace PlanPayload) (p : PlanPayload),
        jsTruthy apiKey = true →
        jsTruthy scope.session_id = false →
        pt.create = .ok (sid, url) →
        pollSessionE pt.freshGet = .ok tr →
        tr.result.structured_output = some p →
        generateActionPlan jsonParse apiKey pt scope = ⟨some sid, some url, p, false⟩) := by
  constructor
  · intro jsonParse apiKey t issue sid url tr p hk hc hp hs
    simp [scopeIssue, hk, hc, hp, resolveScopeSession, hs]
  · intro jsonParse apiKey pt scope sid url tr p hk hsid hc hp hs
    simp [generateActionPlan, hk, hsid, planFresh, hc, hp, hs]

/-- A structured scope payload used for closed instances. -/
def wScopePayload : ScopePayload := ⟨"do the thing", 4, 80, ["r1"], ["k1"], "2 hours"⟩

/-- A finished session carrying the structured payload. -/
def wSessionFin : Session ScopePayload := ⟨some "finished", "finished", some wScopePayload, []⟩

/-- A transport resolving to the finished structured session. -/
def wTransportOk : Transport ScopePayload := ⟨.ok ("s1", "u1"), fun _ => .ok wSessionFin⟩

/-- Witness for claim C1: the round trip evaluated on a concrete session. -/
theorem structured_output_roundtrip_witness :
    scopeIssue (fun _ => none) (some "key") wTransportOk ⟨1, "t", none, []⟩ =
      ⟨some "s1", some "u1", wScopePayload, false⟩ :=
  structured_output_roundtrip.1 _ _ _ _ _ _ ⟨wSessionFin, 1, 0⟩ _ rfl rfl (by decide) rfl

/-- Session whose last agent message is the empty string, used by the claim C10
counterexample. -/
def cexSessionD : Session ScopePayload :=
  ⟨some "finished", "finished", none, [⟨"devin", ""⟩]⟩

/-- Transport used by the claim C10 counterexample. -/
def cexTransportD : Transport ScopePayload := ⟨.ok ("sd", "ud"), fun _ => .ok cexSessionD⟩

/-- Claim C10 counterexample: an empty-string last agent message exists and fails
the JSON parse, yet line 132's truthiness test skips the parse branch and line
151 returns the tagged heuristic fallback with the session identifiers, not the
untagged parse-failure default the claim asserts. -/
theorem parse_failure_default_counterexample :
    getLastDevinMessage cexSessionD = some "" ∧
    scopeIssue (fun _ => none) (some "key") cexTransportD ⟨12, "d", none, []⟩ =
      ⟨some "sd", some "ud", fallbackScopingPayload ⟨12, "d", none, []⟩, true⟩ ∧
    (scopeIssue (fun _ => none) (some "key") cexTransportD ⟨12, "d", none, []⟩).fallback
        ≠ false ∧
    (scopeIssue (fun _ => none) (some "key") cexTransportD ⟨12, "d", none, []⟩).payload ≠
      parseFailurePayload "" := by
  decide

/-- Claim C10 amended (theorem): a polled scope session with no structured output
whose last agent message exists and is non-empty but fails the JSON parse
resolves to the parse-failure default: the raw message as scope, complexity 5,
confidence 50, the fixed requirement and risk strings, the see-session time,
the session identifiers, and no fallback marker.  An empty-string message is
falsy in JavaScript and falls to the tagged heuristic fallback instead. -/
theorem parse_failure_default (jsonParse : String → Option ScopePayload)
    (apiKey : Option String) (t : Transport ScopePayload) (issue : Issue)
    (sid url msg : String) (tr : PollTrace ScopePayload)
    (hk : jsTruthy apiKey = true) (hc : t.create = .ok (sid, url))
    (hp : pollSessionE t.get = .ok tr)
    (hs : tr.result.structured_output = none)
    (hm : getLastDevinMessage tr.result = some msg)
    (hmne : msg ≠ "")
    (hj : jsonParse (extractJson msg) = none) :
    scopeIssue jsonParse apiKey t issue =
      ⟨some sid, some url,
        ⟨msg, 5, 50, ["Review Devin session for details"],
          ["Could not parse structured response"], "See Devin session"⟩, false⟩ := by
  simp [scopeIssue, hk, hc, hp, resolveScopeSession, hs, hm, hmne, hj, parseFailurePayload]

/-- A finished session whose only agent message is plain prose. -/
def wSessionProse : Session ScopePayload :=
  ⟨some "finished", "finished", none, [⟨"devin", "no json here"⟩]⟩

/-- A transport resolving to the prose session. -/
def wTransportProse : Transport ScopePayload := ⟨.ok ("s2", "u2"), fun _ => .ok wSessionProse⟩

/-- Witness for the amended claim C10: the parse-failure default evaluated on a
concrete session with a non-empty prose message. -/
theorem parse_failure_default_witness :
    scopeIssue (fun _ => none) (some "key") wTransportProse ⟨2, "t2", none, []⟩ =
      ⟨some "s2", some "u2",
        ⟨"no json here", 5, 50, ["Review Devin session for details"],
          ["Could not parse structured response"], "See Devin session"⟩, false⟩ :=
  parse_failure_default _ _ _ _ _ _ "no json here" ⟨wSessionProse, 1, 0⟩
    rfl rfl (by decide) rfl (by decide) (by decide) rfl

/-- Issue used by the claim C2 counterexample. -/
def cexIssueA : Issue := ⟨7, "task", none, []⟩

/-- Session used by the claim C2 counterexample: no structured output, one
unparsable prose message. -/
def cexSessionA : Session ScopePayload :=
  ⟨some "finished", "finished", none, [⟨"assistant", "plain prose answer"⟩]⟩

/-- Transport used by the claim C2 counterexample. -/
def cexTransportA : Transport ScopePayload := ⟨.ok ("sa", "ua"), fun _ => .ok cexSessionA⟩

/-- Claim C2 counterexample: a session with an unparsable last agent message does
not resolve to the heuristic score with the fallback marker; it resolves to the
parse-failure default with no fallback marker, and that payload differs from the
heuristic one. -/
theorem fallback_tier_counterexample :
    (scopeIssue (fun _ => none) (some "key") cexTransportA cexIssueA).fallback = false ∧
    (scopeIssue (fun _ => none) (some "key") cexTransportA cexIssueA).payload ≠
      fallbackScopingPayload cexIssueA := by
  decide

/-- Claim C2 amended (theorem): a session with no truthy agent-authored message —
none at all, or an empty string, which is falsy in JavaScript — resolves to the
heuristic score with the fallback marker and the session identifiers attached;
a non-empty unparsable last agent message instead yields the parse-failure
default with no fallback marker. -/
theorem fallback_tier_amended :
    (∀ (jsonParse : String → Option ScopePayload) (apiKey : Option String)
        (t : Transport ScopePayload) (issue : Issue) (sid url : String)
        (tr : PollTrace ScopePayload),
        jsTruthy apiKey = true → t.create = .ok (sid, url) →
        pollSessionE t.get = .ok tr →
        tr.result.structured_output = none →
        getLastDevinMessage tr.result = none →
        scopeIssue jsonParse apiKey t issue =
          ⟨some sid, some url, fallbackScopingPayload issue, true⟩) ∧
    (∀ (jsonParse : String → Option ScopePayload) (apiKey : Option String)
        (t : Transport ScopePayload) (issue : Issue) (sid url : String)
        (tr : PollTrace ScopePayload),
        jsTruthy apiKey = true → t.create = .ok (sid, url) →
        pollSessionE t.get = .ok tr →
        tr.result.structured_output = none →
        getLastDevinMessage tr.result = some "" →
        scopeIssue jsonParse apiKey t issue =
          ⟨some sid, some url, fallbackScopingPayload issue, true⟩) ∧
    (∀ (jsonParse : String → Option ScopePayload) (apiKey : Option String)
        (t : Transport ScopePayload) (issue : Issue) (sid url msg : String)
        (tr : PollTrace ScopePayload),
        jsTruthy apiKey = true → t.create = .ok (sid, url) →
        pollSessionE t.get = .ok tr →
        tr.result.structured_output = none →
        getLastDevinMessage tr.result = some msg →
        msg ≠ "" →
        jsonParse (extractJson msg) = none →
        scopeIssue jsonParse apiKey t issue =
          ⟨some sid, some url, parseFailurePayload msg, false⟩) := by
  refine ⟨?_, ?_, ?_⟩
  · intro jsonParse apiKey t issue sid url tr hk hc hp hs hm
    simp [scopeIssue, hk, hc, hp, resolveScopeSession, hs, hm]
  · intro jsonParse apiKey t issue sid url tr hk hc hp hs hm
    simp [scopeIssue, hk, hc, hp, resolveScopeSession, hs, hm]
  · intro jsonParse apiKey t issue sid url msg tr hk hc hp hs hm hmne hj
    simp [scopeIssue, hk, hc, hp, resolveScopeSession, hs, hm, hmne, hj]

/-- A finished session with no structured output and no messages at all. -/
def wSessionEmpty : Session ScopePayload := ⟨some "finished", "finished", none, []⟩

/-- A transport resolving to the empty finished session. -/
def wTransportEmpty : Transport ScopePayload := ⟨.ok ("s4", "u4"), fun _ => .ok wSessionEmpty⟩

/-- Witness for the amended claim C2: the no-message fallback evaluated on a
concrete empty session. -/
theorem fallback_tier_amended_witness :
    scopeIssue (fun _ => none) (some "key") wTransportEmpty ⟨3, "t3", none, []⟩ =
      ⟨some "s4", some "u4", fallbackScopingPayload ⟨3, "t3", none, []⟩, true⟩ :=
  fallback_tier_amended.1 _ _ _ _ _ _ ⟨wSessionEmpty, 1, 0⟩ rfl rfl (by decide) rfl rfl

/-- Out-of-bounds structured payload used by the claim C4 counterexample. -/
def cexBadPayload : ScopePayload := ⟨"s", 999, 0, [], [], "x"⟩

/-- Session carrying the out-of-bounds payload. -/
def cexSessionB : Session ScopePayload := ⟨some "finished", "finished", some cexBadPayload, []⟩

/-- Transport used by the claim C4 counterexample. -/
def cexTransportB : Transport ScopePayload := ⟨.ok ("sb", "ub"), fun _ => .ok cexSessionB⟩

/-- Claim C4 counterexample: a remote structured payload is passed through
unvalidated, so the returned scope result can carry complexity 999 and
confidence 0, outside the claimed bounds. -/
theorem bounds_invariant_counterexample :
    (scopeIssue (fun _ => none) (some "key") cexTransportB ⟨9, "t", none, []⟩).payload.complexity
        = 999 ∧
    (scopeIssue (fun _ => none) (some "key") cexTransportB
        ⟨9, "t", none, []⟩).payload.confidence_score = 0 ∧
    ¬(1 ≤ (999 : Int) ∧ (999 : Int) ≤ 10) ∧ ¬(1 ≤ (0 : Int)) := by
  decide

/-- Helper: when resolution attaches the fallback marker, its payload is exactly
the heuristic one. -/
lemma resolveScopeSession_fallback_payload (jsonParse : String → Option ScopePayload)
    (issue : Issue) (sid url : String) (s : Session ScopePayload)
    (h : (resolveScopeSession jsonParse issue sid url s).fallback = true) :
    (resolveScopeSession jsonParse issue sid url s).payload = fallbackScopingPayload issue := by
  unfold resolveScopeSession at h ⊢
  rcases hso : s.structured_output with _ | p
  · rcases hm : getLastDevinMessage s with _ | msg
    · rfl
    · rw [hso, hm] at h
      cases he : (msg == "")
      · rcases hj : jsonParse (extractJson msg) with _ | parsed <;> simp [he, hj] at h
      · simp [he]
  · rw [hso] at h
    simp at h

/-- Helper: the scope stage returns either the direct fallback object or the
resolution of some polled session. -/
lemma scopeIssue_result_cases (jsonParse : String → Option ScopePayload)
    (apiKey : Option String) (t : Transport ScopePayload) (issue : Issue) :
    scopeIssue jsonParse apiKey t issue = fallbackScopingResult issue ∨
    ∃ sid url s, scopeIssue jsonParse apiKey t issue =
      resolveScopeSession jsonParse issue sid url s := by
  unfold scopeIssue
  cases hk : (!jsTruthy apiKey)
  · rcases hc : t.create with u | ⟨sid, url⟩
    · exact Or.inl (by simp)
    · rcases hp : pollSessionE t.get with e | tr
      · exact Or.inl (by simp)
      · exact Or.inr ⟨sid, url, tr.result, by simp⟩
  · exact Or.inl (by simp)

/-- Helper: when the scope stage attaches the fallback marker, its payload is
exactly the heuristic one. -/
lemma scopeIssue_fallback_payload (jsonParse : String → Option ScopePayload)
    (apiKey : Option String) (t : Transport ScopePayload) (issue : Issue)
    (h : (scopeIssue jsonParse apiKey t issue).fallback = true) :
    (scopeIssue jsonParse apiKey t issue).payload = fallbackScopingPayload issue := by
  rcases scopeIssue_result_cases jsonParse apiKey t issue with hc | ⟨sid, url, s, hc⟩
  · rw [hc]; rfl
  · rw [hc] at h ⊢
    exact resolveScopeSession_fallback_payload _ _ _ _ _ h

/-- Claim C4 amended (theorem): the bounds hold for every locally produced
payload — the heuristic score has complexity between 1 and 10 and confidence
between 1 and 100, the parse-failure default uses 5 and 50, and every scope
result carrying the fallback marker satisfies the bounds — while remote
payloads are passed through unvalidated. -/
theorem bounds_invariant_amended :
    (∀ issue : Issue,
      1 ≤ (fallbackScopingPayload issue).complexity ∧
      (fallbackScopingPayload issue).complexity ≤ 10 ∧
      1 ≤ (fallbackScopingPayload issue).confidence_score ∧
      (fallbackScopingPayload issue).confidence_score ≤ 100) ∧
    (∀ msg : String,
      1 ≤ (parseFailurePayload msg).complexity ∧
      (parseFailurePayload msg).complexity ≤ 10 ∧
      1 ≤ (parseFailurePayload msg).confidence_score ∧
      (parseFailurePayload msg).confidence_score ≤ 100) ∧
    (∀ (jsonParse : String → Option ScopePayload) (apiKey : Option String)
        (t : Transport ScopePayload) (issue : Issue),
      (scopeIssue jsonParse apiKey t issue).fallback = true →
      1 ≤ (scopeIssue jsonParse apiKey t issue).payload.complexity ∧
      (scopeIssue jsonParse apiKey t issue).payload.complexity ≤ 10 ∧
      1 ≤ (scopeIssue jsonParse apiKey t issue).payload.confidence_score ∧
      (scopeIssue jsonParse apiKey t issue).payload.confidence_score ≤ 100) := by
  have hb : ∀ issue : Issue,
      1 ≤ (fallbackScopingPayload issue).complexity ∧
      (fallbackScopingPayload issue).complexity ≤ 10 ∧
      1 ≤ (fallbackScopingPayload issue).confidence_score ∧
      (fallbackScopingPayload issue).confidence_score ≤ 100 := by
    intro issue
    simp only [fallbackScopingPayload]
    refine ⟨by omega, by omega, by omega, by omega⟩
  refine ⟨hb, fun msg => ⟨by norm_num [parseFailurePayload], by norm_num [parseFailurePayload],
    by norm_num [parseFailurePayload], by norm_num [parseFailurePayload]⟩, ?_⟩
  intro jsonParse apiKey t issue h
  rw [scopeIssue_fallback_payload _ _ _ _ h]
  exact hb issue

/-- Witness for the amended claim C4: the fallback-marked bounds evaluated on a
concrete fallback result. -/
theorem bounds_invariant_amended_witness :
    1 ≤ (scopeIssue (fun _ => none) none wTransportReject
        ⟨5, "w", none, []⟩).payload.complexity ∧
    (scopeIssue (fun _ => none) none wTransportReject ⟨5, "w", none, []⟩).payload.complexity
        ≤ 10 ∧
    1 ≤ (scopeIssue (fun _ => none) none wTransportReject
        ⟨5, "w", none, []⟩).payload.confidence_score ∧
    (scopeIssue (fun _ => none) none wTransportReject
        ⟨5, "w", none, []⟩).payload.confidence_score ≤ 100 :=
  bounds_invariant_amended.2.2 _ _ _ _ (by decide)

/-- Issue used by the claim C8 counterexample. -/
def cexIssueC : Issue := ⟨11, "c-task", none, ["bug"]⟩

/-- Session used by the claim C8 counterexample: an unparsable tool-output reply. -/
def cexSessionC : Session ScopePayload :=
  ⟨some "finished", "finished", none, [⟨"tool_output", "unstructured reply"⟩]⟩

/-- Transport used by the claim C8 counterexample. -/
def cexTransportC : Transport ScopePayload := ⟨.ok ("sc", "uc"), fun _ => .ok cexSessionC⟩

/-- Claim C8 counterexample: a parse failure in the scope stage is not raised but
also does not produce the heuristic fallback tagged with the marker — it yields
the untagged parse-failure default, whose payload differs from the heuristic. -/
theorem propagation_policy_counterexample :
    (scopeIssue (fun _ => none) (some "key") cexTransportC cexIssueC).fallback = false ∧
    (scopeIssue (fun _ => none) (some "key") cexTransportC cexIssueC).payload ≠
      fallbackScopingPayload cexIssueC := by
  decide

/-- Claim C8 amended (theorem): transport and timeout failures in the scope stage
degrade to the tagged heuristic fallback and are never raised; a scope parse
failure of a non-empty message is never raised either but yields the untagged
parse-failure default instead of the tagged heuristic; in the plan stage,
fresh-path failures degrade to the tagged plan fallback, and continuation-path
failures — a rejected getSession, a rejected sendMessage, or a failed
continuation poll — are absorbed by retrying the fresh path; the execute stage
propagates transport errors directly. -/
theorem propagation_policy_amended :
    (∀ (jsonParse : String → Option ScopePayload) (apiKey : Option String)
        (t : Transport ScopePayload) (issue : Issue), t.create = .error () →
        scopeIssue jsonParse apiKey t issue = fallbackScopingResult issue) ∧
    (∀ (jsonParse : String → Option ScopePayload) (apiKey : Option String)
        (t : Transport ScopePayload) (issue : Issue) (e : DevinError),
        pollSessionE t.get = .error e →
        scopeIssue jsonParse apiKey t issue = fallbackScopingResult issue) ∧
    (∀ (jsonParse : String → Option ScopePayload) (apiKey : Option String)
        (t : Transport ScopePayload) (issue : Issue) (sid url msg : String)
        (tr : PollTrace ScopePayload),
        jsTruthy apiKey = true → t.create = .ok (sid, url) →
        pollSessionE t.get = .ok tr →
        tr.result.structured_output = none →
        getLastDevinMessage tr.result = some msg →
        msg ≠ "" →
        jsonParse (extractJson msg) = none →
        scopeIssue jsonParse apiKey t issue =
          ⟨some sid, some url, parseFailurePayload msg, false⟩) ∧
    (∀ (jsonParse : String → Option PlanPayload) (pt : PlanTransport),
        pt.create = .error () →
        planFresh jsonParse pt = fallbackActionPlanResult) ∧
    (∀ (jsonParse : String → Option PlanPayload) (pt : PlanTransport) (e : DevinError),
        pollSessionE pt.freshGet = .error e →
        planFresh jsonParse pt = fallbackActionPlanResult) ∧
    (∀ (jsonParse : String → Option PlanPayload) (apiKey : Option String)
        (pt : PlanTransport) (scope : ScopeResult),
        jsTruthy apiKey = true → pt.contGet = .error () →
        generateActionPlan jsonParse apiKey pt scope = planFresh jsonParse pt) ∧
    (∀ (jsonParse : String → Option PlanPayload) (apiKey : Option String)
        (pt : PlanTransport) (scope : ScopeResult) (sess : Session PlanPayload),
        jsTruthy apiKey = true → pt.contGet = .ok sess →
        sess.status_enum = some "blocked" → pt.contSend = .error () →
        generateActionPlan jsonParse apiKey pt scope = planFresh jsonParse pt) ∧
    (∀ (jsonParse : String → Option PlanPayload) (apiKey : Option String)
        (pt : PlanTransport) (scope : ScopeResult) (sess : Session PlanPayload)
        (e : DevinError),
        jsTruthy apiKey = true → pt.contGet = .ok sess →
        sess.status_enum = some "blocked" → pt.contSend = .ok () →
        pollSessionE pt.contPoll = .error e →
        generateActionPlan jsonParse apiKey pt scope = planFresh jsonParse pt) ∧
    (∀ (apiKey : Option String) (create : Except Unit (String × String)),
        jsTruthy apiKey = true → create = .error () →
        executeActionPlan apiKey create = .error .transport) := by
  refine ⟨?_, ?_, ?_, ?_, ?_, ?_, ?_, ?_, ?_⟩
  · intro jsonParse apiKey t issue hc
    by_cases hk : jsTruthy apiKey = true <;> simp [scopeIssue, hk, hc]
  · intro jsonParse apiKey t issue e hp
    by_cases hk : jsTruthy apiKey = true <;>
      rcases hc : t.create with u | ⟨sid, url⟩ <;> simp [scopeIssue, hk, hc, hp]
  · intro jsonParse apiKey t issue sid url msg tr hk hc hp hs hm hmne hj
    simp [scopeIssue, hk, hc, hp, resolveScopeSession, hs, hm, hmne, hj]
  · intro jsonParse pt hc
    simp [planFresh, hc]
  · intro jsonParse pt e hp
    rcases hc : pt.create with u | ⟨sid, url⟩ <;> simp [planFresh, hc, hp]
  · intro jsonParse apiKey pt scope hk hc
    by_cases hs : jsTruthy scope.session_id = true <;>
      simp [generateActionPlan, hk, hc, hs]
  · intro jsonParse apiKey pt scope sess hk hcg hsb hcs
    by_cases hs : jsTruthy scope.session_id = true <;>
      simp [generateActionPlan, hk, hcg, hsb, hcs, hs]
  · intro jsonParse apiKey pt scope sess e hk hcg hsb hcs hcp
    by_cases hs : jsTruthy scope.session_id = true <;>
      simp [generateActionPlan, hk, hcg, hsb, hcs, hcp, hs]
  · intro apiKey create hk hc
    simp [executeActionPlan, hk, hc]

/-- Witness for the amended claim C8: the degrade-on-create-failure behavior
evaluated on a concrete rejecting transport. -/
theorem propagation_policy_amended_witness :
    scopeIssue (fun _ => none) (some "key")
        (⟨.error (), fun _ => .error ()⟩ : Transport ScopePayload) ⟨6, "p", none, []⟩ =
      fallbackScopingResult ⟨6, "p", none, []⟩ :=
  propagation_policy_amended.1 _ _ _ _ rfl

/-- Helper: when every fetch resolves to a non-terminal session the loop always
times out, whatever the fuel and starting tick. -/
lemma pollAux_all_nonterminal (sfn : Nat → Session α)
    (hrun : ∀ k, isTerminal (statusOf (sfn k)) = false) :
    ∀ fuel tick, pollAux (fun k => .ok (sfn k)) fuel tick = .error .pollTimeout := by
  intro fuel
  induction fuel with
  | zero => intro tick; rfl
  | succ n ih =>
    intro tick
    simp only [pollAux]
    split
    · simp [hrun tick, ih]
    · rfl

/-- Helper: when the first terminal fetch is at tick m, within the ceiling, the
loop returns that session with m + 1 fetches and m sleeps. -/
lemma pollAux_first_terminal (sfn : Nat → Session α) (m : Nat)
    (hterm : isTerminal (statusOf (sfn m)) = true)
    (hpre : ∀ k, k < m → isTerminal (statusOf (sfn k)) = false) :
    ∀ fuel tick, tick ≤ m → m < tick + fuel → m * POLL_INTERVAL < MAX_POLL_TIME →
      pollAux (fun k => .ok (sfn k)) fuel tick = .ok ⟨sfn m, m + 1, m⟩ := by
  intro fuel
  induction fuel with
  | zero => intro tick h1 h2 _; omega
  | succ n ih =>
    intro tick h1 h2 h3
    have hg : tick * POLL_INTERVAL < MAX_POLL_TIME :=
      Nat.lt_of_le_of_lt (Nat.mul_le_mul_right _ h1) h3
    rcases Nat.eq_or_lt_of_le h1 with heq | hlt
    · subst heq
      simp [pollAux, hg, hterm]
    · simp only [pollAux, if_pos hg, hpre tick hlt, Bool.false_eq_true, if_false]
      exact ih (tick + 1) hlt (by omega) h3

set_option maxRecDepth 2000 in
/-- Claim C5 (confirmed): the poll loop has a hard 300000 millisecond ceiling
measured from loop entry with a fixed 5000 millisecond sleep between ticks; a
session reporting running on every tick makes the loop end in the timeout error
carrying no partial result, and a session first reporting finished on tick n
(within the ceiling) is returned after exactly n fetches with n - 1 sleeps,
hence no extra delay after the terminal fetch. -/
theorem poll_bound :
    MAX_POLL_TIME = 300000 ∧ POLL_INTERVAL = 5000 ∧
    (∀ (sfn : Nat → Session ScopePayload),
      (∀ k, statusOf (sfn k) = "running") →
      pollSessionE (fun k => .ok (sfn k)) = .error .pollTimeout) ∧
    (∀ (sfn : Nat → Session ScopePayload) (n : Nat),
      1 ≤ n → n ≤ MAX_TICKS →
      (∀ k, k < n - 1 → isTerminal (statusOf (sfn k)) = false) →
      statusOf (sfn (n - 1)) = "finished" →
      pollSessionE (fun k => .ok (sfn k)) = .ok ⟨sfn (n - 1), n, n - 1⟩) := by
  refine ⟨rfl, rfl, ?_, ?_⟩
  · intro sfn hr
    exact pollAux_all_nonterminal sfn (fun k => by rw [hr k]; rfl) MAX_TICKS 0
  · intro sfn n h1 h2 hpre hfin
    have hterm : isTerminal (statusOf (sfn (n - 1))) = true := by rw [hfin]; rfl
    have hmt : MAX_TICKS = 60 := rfl
    have hcon : n - 1 + 1 = n := by omega
    have := pollAux_first_terminal sfn (n - 1) hterm hpre MAX_TICKS 0
      (Nat.zero_le _) (by omega)
      (by simp only [POLL_INTERVAL, MAX_POLL_TIME]; omega)
    rw [hcon] at this
    exact this

/-- A session stuck in the running state. -/
def wRunSession : Session ScopePayload := ⟨some "running", "running", none, []⟩

/-- A finished empty session for poll witnesses. -/
def wFinSession : Session ScopePayload := ⟨some "finished", "finished", none, []⟩

/-- Status stream that runs for two ticks and finishes on the third. -/
def wPollSfn : Nat → Session ScopePayload :=
  fun k => if k < 2 then wRunSession else wFinSession

set_option maxRecDepth 2000 in
/-- Witness for claim C5: finished on tick 3 returns after exactly 3 fetches and
2 sleeps, and permanently running times out. -/
theorem poll_bound_witness :
    pollSessionE (fun k => .ok (wPollSfn k)) = .ok ⟨wPollSfn 2, 3, 2⟩ ∧
    pollSessionE (fun _ => .ok wRunSession) = .error .pollTimeout :=
  ⟨poll_bound.2.2.2 wPollSfn 3 (by decide) (by decide) (by decide) (by decide),
   poll_bound.2.2.1 (fun _ => wRunSession) (fun _ => rfl)⟩

/-- A session reporting the blocked status. -/
def wBlockedSession : Session ScopePayload := ⟨some "blocked", "blocked", none, []⟩

/-- Claim C6 counterexample: a session reporting blocked on the very first tick
makes the loop stop and return it after one fetch and no sleep — blocked does
not cause the loop to continue polling. -/
theorem status_classification_counterexample :
    statusOf wBlockedSession = "blocked" ∧
    pollSessionE (fun _ => .ok wBlockedSession) = .ok ⟨wBlockedSession, 1, 0⟩ := by
  decide

/-- Claim C6 amended (theorem): on every tick within the ceiling, a running
status is non-terminal and the loop moves on to the next tick, while finished,
blocked, and expired are all terminal and make the loop stop and return the
session at once. -/
theorem status_classification_amended (get : Nat → Except Unit (Session α))
    (fuel tick : Nat) (s : Session α)
    (hget : get tick = .ok s)
    (hg : tick * POLL_INTERVAL < MAX_POLL_TIME) :
    ((statusOf s = "finished" ∨ statusOf s = "blocked" ∨ statusOf s = "expired") →
      pollAux get (fuel + 1) tick = .ok ⟨s, tick + 1, tick⟩) ∧
    (statusOf s = "running" →
      pollAux get (fuel + 1) tick = pollAux get fuel (tick + 1)) := by
  constructor
  · rintro (h | h | h) <;> simp [pollAux, hg, hget, isTerminal, h]
  · intro h
    simp [pollAux, hg, hget, isTerminal, h]

/-- Witness for the amended claim C6: a finished first fetch returns at once. -/
theorem status_classification_amended_witness :
    pollAux (fun _ => .ok wFinSession) 60 0 = .ok ⟨wFinSession, 1, 0⟩ :=
  (status_classification_amended (fun _ => .ok wFinSession) 59 0 wFinSession rfl
    (by decide)).1 (Or.inl (by decide))

/-- Helper: a character that occurs in the list has a last index. -/
lemma lastIdxOf_isSome (c : Char) (l : List Char) (hc : c ∈ l) :
    ∃ j, lastIdxOf c l = some j := by
  have hex : ∃ x, x ∈ l.reverse ∧ ((fun y => y == c) x) := ⟨c, by simpa using hc, by simp⟩
  have hsome := List.findIdx?_eq_some_of_exists hex
  exact ⟨_, by unfold lastIdxOf; rw [hsome]⟩

/-- Helper: the last index of a character holds that character, and no later
position does. -/
lemma lastIdxOf_spec (c : Char) (l : List Char) (j : Nat)
    (h : lastIdxOf c l = some j) :
    l[j]? = some c ∧ ∀ k, j < k → l[k]? ≠ some c := by
  unfold lastIdxOf at h
  rcases hr : l.reverse.findIdx? (fun x => x == c) with _ | k <;> rw [hr] at h
  · simp at h
  · simp only [Option.some.injEq] at h
    rw [List.findIdx?_eq_some_iff_getElem] at hr
    obtain ⟨hk0, hp, hmin⟩ := hr
    have hkL : k < l.length := by simpa using hk0
    have hrevk : l.reverse[k]? = some c := by
      rw [List.getElem?_eq_getElem hk0]
      simpa using hp
    have hjv : l[j]? = some c := by
      rw [← h, ← List.getElem?_reverse hkL]
      exact hrevk
    refine ⟨hjv, ?_⟩
    intro k' hk' hcon
    rw [List.getElem?_eq_some_iff] at hcon
    obtain ⟨hlt', heq'⟩ := hcon
    have hrlt : l.length - 1 - k' < k := by omega
    have hrlen : l.length - 1 - k' < l.reverse.length := by
      rw [List.length_reverse]; omega
    have hro : l.reverse[l.length - 1 - k']? = l[k']? := by
      rw [List.getElem?_reverse (show l.length - 1 - k' < l.length by omega)]
      congr 1
      omega
    have hsome : l.reverse[l.length - 1 - k']? = some c := by
      rw [hro, List.getElem?_eq_getElem hlt', heq']
    rw [List.getElem?_eq_getElem hrlen] at hsome
    have hval := Option.some.inj hsome
    exact absurd (by simp [hval]) (hmin (l.length - 1 - k') hrlt)

set_option maxRecDepth 2000 in
/-- Claim C9 (confirmed): when the input contains an open brace with a close
brace at or after it, extraction returns the contiguous slice from the first
open brace to the last close brace, greedily and with no depth balancing; when
no such pair exists, extraction is the identity.  The third conjunct ties the
string-level function to the character-list semantics. -/
theorem extractJson_spec (l : List Char) :
    ((∃ i j : Nat, i ≤ j ∧ l[i]? = some '{' ∧ l[j]? = some '}') →
      ∃ i j : Nat, i < j ∧ l[i]? = some '{' ∧ l[j]? = some '}' ∧
        (∀ k, k < i → l[k]? ≠ some '{') ∧
        (∀ k, j < k → l[k]? ≠ some '}') ∧
        extractJsonL l = (l.drop i).take (j - i + 1)) ∧
    ((¬ ∃ i j : Nat, i ≤ j ∧ l[i]? = some '{' ∧ l[j]? = some '}') → extractJsonL l = l) ∧
    (∀ s : String, extractJson s = ⟨extractJsonL s.data⟩) := by
  refine ⟨?_, ?_, fun s => rfl⟩
  · rintro ⟨i, j, hij, hi, hj⟩
    have hne : i ≠ j := by
      intro he
      subst he
      rw [hi] at hj
      exact absurd (Option.some.inj hj) (by decide)
    have hilt : i < j := Nat.lt_of_le_of_ne hij hne
    have hmem1 : '{' ∈ l := List.getElem?_mem hi
    obtain ⟨i0, hf⟩ : ∃ i0, l.findIdx? (fun ch => ch == '{') = some i0 :=
      ⟨_, List.findIdx?_eq_some_of_exists ⟨'{', hmem1, by simp⟩⟩
    have hfspec := hf
    rw [List.findIdx?_eq_some_iff_getElem] at hfspec
    obtain ⟨hi0len, hp0, hmin0⟩ := hfspec
    have hi0get : l[i0]? = some '{' := by
      rw [List.getElem?_eq_getElem hi0len]
      simpa using hp0
    have hmin0' : ∀ k, k < i0 → l[k]? ≠ some '{' := by
      intro k hk hcon
      rw [List.getElem?_eq_some_iff] at hcon
      obtain ⟨hlt, heq⟩ := hcon
      exact absurd (by simp [heq]) (hmin0 k hk)
    have hi0le : i0 ≤ i := by
      by_contra hcon
      push_neg at hcon
      exact hmin0' i hcon hi
    have hmem2 : '}' ∈ l := List.getElem?_mem hj
    obtain ⟨j1, hl⟩ := lastIdxOf_isSome '}' l hmem2
    obtain ⟨hj1get, hj1max⟩ := lastIdxOf_spec '}' l j1 hl
    have hjle : j ≤ j1 := by
      by_contra hcon
      push_neg at hcon
      exact hj1max j hcon hj
    have hi0j1 : i0 < j1 := Nat.lt_of_le_of_lt hi0le (Nat.lt_of_lt_of_le hilt hjle)
    refine ⟨i0, j1, hi0j1, hi0get, hj1get, hmin0', hj1max, ?_⟩
    unfold extractJsonL
    rw [hf, hl]
    simp [hi0j1]
  · intro hno
    unfold extractJsonL
    rcases hf : l.findIdx? (fun ch => ch == '{') with _ | i0
    · rfl
    · rcases hl : lastIdxOf '}' l with _ | j1
      · rfl
      · have hni : ¬ i0 < j1 := by
          intro hlt
          obtain ⟨hj1get, _⟩ := lastIdxOf_spec '}' l j1 hl
          have hfspec := hf
          rw [List.findIdx?_eq_some_iff_getElem] at hfspec
          obtain ⟨hi0len, hp0, _⟩ := hfspec
          have hi0get : l[i0]? = some '{' := by
            rw [List.getElem?_eq_getElem hi0len]
            simpa using hp0
          exact hno ⟨i0, j1, Nat.le_of_lt hlt, hi0get, hj1get⟩
        simp [hni]

/-- Witness for claim C9: the greedy slice evaluated on a concrete string with
prose around a brace span. -/
theorem extractJson_spec_witness :
    ∃ i j : Nat, i < j ∧ ('a' :: '{' :: 'b' :: '}' :: 'c' :: [])[i]? = some '{' ∧
      ('a' :: '{' :: 'b' :: '}' :: 'c' :: [])[j]? = some '}' ∧
      (∀ k, k < i → ('a' :: '{' :: 'b' :: '}' :: 'c' :: [])[k]? ≠ some '{') ∧
      (∀ k, j < k → ('a' :: '{' :: 'b' :: '}' :: 'c' :: [])[k]? ≠ some '}') ∧
      extractJsonL ('a' :: '{' :: 'b' :: '}' :: 'c' :: []) =
        (('a' :: '{' :: 'b' :: '}' :: 'c' :: []).drop i).take (j - i + 1) :=
  (extractJson_spec ('a' :: '{' :: 'b' :: '}' :: 'c' :: [])).1
    ⟨1, 3, by decide, by decide, by decide⟩

end Devin
